import Mathlib

/-!
Verification of the eval-harness repository: a shallow embedding of
`src/eval_harness/{loader,config,evaluator,aggregator,reporter}.py`
together with theorems about the embedded functions.

JSON values and Python dynamic values are modelled by the inductive
`JValue`; Python exceptions by `PyError`; fallible Python code returns
`Except PyError _`.  File and network I/O are out of scope: `json.load`
of the input file is modelled by passing the parsed `JValue`, and the two
judge backends by abstract functions returning the judge reply already
run through `json.loads` (`none` meaning the reply was not valid JSON).
-/

namespace EvalHarness

/-- JSON-like Python values as produced by `json.loads`: null, booleans,
integers, non-integral numbers, strings, arrays, and objects.  Objects
are association lists with distinct keys in insertion order, matching a
Python `dict`. -/
inductive JValue where
  | jnull : JValue
  | jbool (b : Bool) : JValue
  | jint (n : Int) : JValue
  | jnum (q : ℚ) : JValue
  | jstr (s : String) : JValue
  | jarr (items : List JValue) : JValue
  | jobj (fields : List (String × JValue)) : JValue

/-- Python exceptions raised by the embedded code. -/
inductive PyError where
  | valueError (msg : String) : PyError
  | keyError (key : String) : PyError
  | typeError (msg : String) : PyError
  | attributeError (attr : String) : PyError
  | jsonDecodeError : PyError
deriving DecidableEq, Repr

/-- Python `s.startswith(pre)`: exact, case-sensitive prefix test. -/
def pyStartsWith (s pre : String) : Bool := pre.data.isPrefixOf s.data

/-- The whitespace characters Python `str.strip()` removes: space, tab,
newline, carriage return, vertical tab, form feed, the separator
controls 0x1c-0x1f, and NEL; the rarer Unicode space characters are not
modelled (no input in this development contains them). -/
def pyIsSpace (c : Char) : Bool :=
  c.isWhitespace || c = '\x0b' || c = '\x0c' || c = '\x1c' || c = '\x1d' ||
    c = '\x1e' || c = '\x1f' || c = '\x85'

/-- Python `s.strip()`: removes leading and trailing whitespace. -/
def pyStrip (s : String) : String :=
  ⟨((s.data.dropWhile pyIsSpace).reverse.dropWhile pyIsSpace).reverse⟩

/-- Key lookup in a JSON object / Python dict (`d[k]` when present,
`none` otherwise; also models `k in d`). -/
def jGet? : List (String × JValue) → String → Option JValue
  | [], _ => none
  | (k, v) :: rest, key => if k = key then some v else jGet? rest key

/-! ## loader.py -/

/-- `loader.Example`: the dataclass exactly as declared in
`src/eval_harness/loader.py` (three fields only). -/
structure Example where
  id : String
  ticket : String
  response : String
deriving DecidableEq, Repr

/-- One entry of `LoadResult.skipped`: the dict
`{"index": i, "reason": reason}` built by `load_examples`. -/
structure SkipRecord where
  index : Nat
  reason : String
deriving DecidableEq, Repr

/-- `loader.LoadResult`. -/
structure LoadResult where
  examples : List Example
  skipped : List SkipRecord
deriving DecidableEq, Repr

/-- The field tuple `("id", "ticket", "response")` iterated by
`loader._validate_example`. -/
def requiredFields : List String := ["id", "ticket", "response"]

/-- The per-field loop body of `loader._validate_example`: for each field
in order, check presence (`field not in item`), string type
(`isinstance(item[field], str)`), then non-emptiness after
`str.strip()`; the first failing check produces the reason string. -/
def validateFields (fields : List (String × JValue)) : List String → Option String
  | [] => none
  | f :: rest =>
    match jGet? fields f with
    | none => some ("Missing '" ++ f ++ "' field")
    | some (.jstr s) =>
        if pyStrip s = "" then some ("'" ++ f ++ "' is empty")
        else validateFields fields rest
    | some _ => some ("'" ++ f ++ "' must be a string")

/-- `loader._validate_example`: `none` when the item is valid, otherwise
the reason string of the first failing check. -/
def validate_example (item : JValue) : Option String :=
  match item with
  | .jobj fields => validateFields fields requiredFields
  | _ => some "Item is not an object"

/-- Reads the string payload of a field that validation has already
checked to be a string (models `item["id"]` etc. after
`_validate_example` returned `None`; the default branch is unreachable
on validated input). -/
def getStrD (v : Option JValue) : String :=
  match v with
  | some (.jstr s) => s
  | _ => ""

/-- The `Example(id=item["id"], ticket=item["ticket"],
response=item["response"])` construction of `load_examples`. -/
def mkExample (fields : List (String × JValue)) : Example :=
  { id := getStrD (jGet? fields "id")
    ticket := getStrD (jGet? fields "ticket")
    response := getStrD (jGet? fields "response") }

/-- The `for i, item in enumerate(data)` loop of `load_examples`,
collecting valid items into `examples` and invalid ones into `skipped`,
both in input order; `i` is the index of the first element of the
remaining list. -/
def loadItems : Nat → List JValue → List Example × List SkipRecord
  | _, [] => ([], [])
  | i, item :: rest =>
    let r := loadItems (i + 1) rest
    match validate_example item with
    | some err => (r.1, ⟨i, err⟩ :: r.2)
    | none =>
      match item with
      | .jobj fields => (mkExample fields :: r.1, r.2)
      | _ => r

/-- `loader.load_examples` on the already-parsed input document: a
top-level non-array raises `ValueError("Input must be a JSON array")`,
an array is split into examples and skip records. -/
def load_examples (data : JValue) : Except PyError LoadResult :=
  match data with
  | .jarr items => .ok { examples := (loadItems 0 items).1, skipped := (loadItems 0 items).2 }
  | _ => .error (.valueError "Input must be a JSON array")

/-! ## config.py -/

/-- `config.Config`: the two string-to-string dicts, as association
lists with distinct keys. -/
structure Config where
  judge_mapping : List (String × String)
  judge_models : List (String × String)
deriving DecidableEq, Repr

/-- `config.get_provider_from_model`: prefix classification of a model
name, `ValueError` for unknown prefixes. -/
def get_provider_from_model (model : String) : Except PyError String :=
  if pyStartsWith model "gpt-" || pyStartsWith model "o1-" then .ok "openai"
  else if pyStartsWith model "claude-" then .ok "anthropic"
  else .error (.valueError ("Unknown model provider for: " ++ model))

/-- Python dict subscription `d[k]` on a string-valued dict: the value
when the key is present, `KeyError` otherwise (used for
`config.judge_mapping[...]` and `config.judge_models[...]`). -/
def dictGet (d : List (String × String)) (k : String) : Except PyError String :=
  match d.lookup k with
  | some v => .ok v
  | none => .error (.keyError k)

/-! ## evaluator.py -/

/-- `evaluator.Score` as the untyped values it actually receives: the
dataclass annotations `score: int`, `reasoning: str` are not enforced at
runtime, and `_score_with_openai` / `_score_with_anthropic` store
whatever `json.loads` produced under the two keys. -/
structure ScoreRaw where
  score : JValue
  reasoning : JValue

/-- `evaluator.EvalResult` for the values produced by
`evaluate_example` (scores as received from parsing). -/
structure EvalResultRaw where
  id : String
  model : String
  prompt_version : String
  relevance : ScoreRaw
  tone : ScoreRaw

/-- `evaluator.RELEVANCE_RUBRIC` verbatim. -/
def RELEVANCE_RUBRIC : String :=
  "\nRate the relevance of this support bot response on a 1-5 scale:\n- 5: Directly addresses the ticket issue, technically accurate, no irrelevant information\n- 4: Addresses the issue correctly, minor omissions or slightly tangential details\n- 3: Partially relevant, misses key aspects or includes notable off-topic content\n- 2: Loosely related but doesn't solve the actual problem\n- 1: Completely off-topic or technically incorrect\n"

/-- `evaluator.TONE_RUBRIC` verbatim. -/
def TONE_RUBRIC : String :=
  "\nRate the tone of this support bot response on a 1-5 scale:\n- 5: Professional and concise - clear, direct, no fluff\n- 4: Mostly professional/concise, minor verbosity or slight tone issues\n- 3: Acceptable but noticeably verbose, overly casual, or slightly robotic\n- 2: Too informal, too wordy, or awkwardly phrased\n- 1: Unprofessional, confusing, or inappropriate tone\n"

/-- `evaluator._build_prompt`: the f-string template (the trailing
`\x7b\x7b...\x7d\x7d` of the f-string renders as literal braces). -/
def build_prompt (e : Example) (dimension : String) (rubric : String) : String :=
  "You are evaluating a support bot response for " ++ dimension ++ ".\n\nTICKET:\n"
    ++ e.ticket ++ "\n\nRESPONSE:\n" ++ e.response ++ "\n\n" ++ rubric
    ++ "\n\nRespond with JSON only: \x7b\"score\": <1-5>, \"reasoning\": \"<brief explanation>\"\x7d"

/-- Python attribute access on a `loader.Example` instance: a dataclass
instance has exactly its declared fields, so any other attribute name
raises `AttributeError`. -/
def exampleAttr (e : Example) (name : String) : Option String :=
  if name = "id" then some e.id
  else if name = "ticket" then some e.ticket
  else if name = "response" then some e.response
  else none

/-- Lifts an attribute access into the exception monad
(`AttributeError` when the dataclass has no such field). -/
def getAttr (e : Example) (name : String) : Except PyError String :=
  match exampleAttr e name with
  | some v => .ok v
  | none => .error (.attributeError name)

/-- Python subscription `v["k"]` on an arbitrary value: `KeyError` on a
dict without the key, `TypeError` on every non-dict value. -/
def pySubscript (v : JValue) (k : String) : Except PyError JValue :=
  match v with
  | .jobj fields =>
    match jGet? fields k with
    | some x => .ok x
    | none => .error (.keyError k)
  | _ => .error (.typeError "value is not subscriptable by a string key")

/-- The shared parsing tail of `evaluator._score_with_openai`
(lines 104-105) and `evaluator._score_with_anthropic` (lines 122-123):
`result = json.loads(text)` followed by
`Score(score=result["score"], reasoning=result["reasoning"])`.
The raw reply text is modelled after `json.loads`: `none` means the text
was not valid JSON (`json.JSONDecodeError`).  No type validation is
performed on the two extracted values. -/
def parse_judge_output (raw : Option JValue) : Except PyError ScoreRaw := do
  match raw with
  | none => .error .jsonDecodeError
  | some v =>
    let s ← pySubscript v "score"
    let r ← pySubscript v "reasoning"
    .ok ⟨s, r⟩

/-- A judge backend as the core needs it: model identifier and prompt in,
reply text out, the text given here already run through `json.loads`
(`none` = invalid JSON).  One such function stands for
`_score_with_openai`, another for `_score_with_anthropic`. -/
def JudgeFn : Type := String → String → Option JValue

/-- `evaluator.evaluate_example`: classify `example.model`, route
through `config.judge_mapping` and `config.judge_models`, score both
dimensions with the selected backend, and assemble the result.  Note
that the source reads `example.model` (line 51) and
`example.prompt_version` (line 70) although `loader.Example` declares
neither field, so attribute access is embedded explicitly. -/
def evaluate_example (e : Example) (config : Config)
    (openaiJudge anthropicJudge : JudgeFn) : Except PyError EvalResultRaw := do
  let model ← getAttr e "model"
  let response_provider ← get_provider_from_model model
  let judge_provider ← dictGet config.judge_mapping response_provider
  let judge_model ← dictGet config.judge_models judge_provider
  let judge := if judge_provider = "openai" then openaiJudge else anthropicJudge
  let relevance ← parse_judge_output (judge judge_model (build_prompt e "relevance" RELEVANCE_RUBRIC))
  let tone ← parse_judge_output (judge judge_model (build_prompt e "tone" TONE_RUBRIC))
  let id ← getAttr e "id"
  let pv ← getAttr e "prompt_version"
  .ok { id := id, model := model, prompt_version := pv, relevance := relevance, tone := tone }

/-! ## aggregator.py -/

/-- `evaluator.Score` with its declared field types (`score: int`,
`reasoning: str`), as constructed throughout the repository's tests and
consumed by the aggregator and reporter. -/
structure Score where
  score : Int
  reasoning : String
deriving DecidableEq, Repr

/-- `evaluator.EvalResult` with its declared field types. -/
structure EvalResult where
  id : String
  model : String
  prompt_version : String
  relevance : Score
  tone : Score
deriving DecidableEq, Repr

/-- Appends one result to its group in an insertion-ordered dict of
lists, modelling `defaultdict(list)` under `d[key].append(r)`: a new key
goes to the end, an existing key keeps its position and appends. -/
def addToGroup (groups : List (String × List EvalResult)) (k : String)
    (r : EvalResult) : List (String × List EvalResult) :=
  match groups with
  | [] => [(k, [r])]
  | (k', rs) :: rest =>
    if k' = k then (k', rs ++ [r]) :: rest
    else (k', rs) :: addToGroup rest k r

/-- The grouping loop of `aggregator.compute_aggregates` for one key
function. -/
def groupBy (key : EvalResult → String) (results : List EvalResult) :
    List (String × List EvalResult) :=
  results.foldl (fun g r => addToGroup g (key r) r) []

/-- Round half to even at integer precision (the rounding CPython's
`round` applies to the decimal expansion of its argument). -/
def roundHalfEven (q : ℚ) : ℤ :=
  if q - ⌊q⌋ < 1/2 then ⌊q⌋
  else if q - ⌊q⌋ > 1/2 then ⌊q⌋ + 1
  else if Even ⌊q⌋ then ⌊q⌋ else ⌊q⌋ + 1

/-- The decimal step of CPython's `round(x, 2)`: the exact value of the
double `x` rounded to two decimal places, ties to even (CPython's
`round` on floats is correctly rounded, via the shortest-decimal
machinery).  The float the program stores is the double nearest this
decimal and serializes back to it. -/
def pyRound2 (q : ℚ) : ℚ := (roundHalfEven (q * 100) : ℚ) / 100

/-- The binary64 double nearest to an exact rational, ties to even: the
IEEE 754 rounding CPython applies when dividing two ints (`sum / len`
is correctly rounded true division).  The exponent is clamped below at
-1074 (the subnormal range); magnitudes beyond the double range
(roughly `2 ^ 1024`, where CPython raises `OverflowError` instead)
are outside the modelled range and no theorem evaluates there. -/
def nearestDouble (q : ℚ) : ℚ :=
  if q = 0 then 0
  else
    (roundHalfEven (q / 2 ^ max (Int.log 2 |q| - 52) (-1074)) : ℚ) *
      2 ^ max (Int.log 2 |q| - 52) (-1074)

/-- Python's `min` over a list, `min(x :: xs) = foldl min x xs`
(`min` of an empty list raises; the aggregator only reaches it with
nonempty groups, so the `[]` branch is unreachable). -/
def pyMin : List Int → Int
  | [] => 0
  | x :: xs => xs.foldl min x

/-- Python's `max` over a list, same shape as `pyMin`. -/
def pyMax : List Int → Int
  | [] => 0
  | x :: xs => xs.foldl max x

/-- `aggregator.DimensionStats` content (the dict
`{"mean": ..., "min": ..., "max": ...}` built by `_compute_stats`). -/
structure DimensionStats where
  mean : ℚ
  min : Int
  max : Int
deriving DecidableEq, Repr

/-- `aggregator.AggregateStats` content (the dict built by
`_compute_stats`). -/
structure AggregateStats where
  count : Nat
  relevance : DimensionStats
  tone : DimensionStats
deriving DecidableEq, Repr

/-- `aggregator._compute_stats` on one group of results.  The mean
models `round(sum(scores) / len(scores), 2)`: integer true division
produces the binary64 double nearest the exact ratio
(`nearestDouble`), and `round` then rounds that double's exact value
to two decimal places, ties to even (`pyRound2`). -/
def compute_stats (results : List EvalResult) : AggregateStats :=
  let relevance_scores : List Int := results.map (fun r => r.relevance.score)
  let tone_scores : List Int := results.map (fun r => r.tone.score)
  { count := results.length
    relevance :=
      { mean := pyRound2 (nearestDouble (((relevance_scores.sum : ℤ) : ℚ) / (relevance_scores.length : ℚ)))
        min := pyMin relevance_scores
        max := pyMax relevance_scores }
    tone :=
      { mean := pyRound2 (nearestDouble (((tone_scores.sum : ℤ) : ℚ) / (tone_scores.length : ℚ)))
        min := pyMin tone_scores
        max := pyMax tone_scores } }

/-- The three groupings returned by `aggregator.compute_aggregates`, as
insertion-ordered dicts. -/
structure Aggregates where
  by_model : List (String × AggregateStats)
  by_prompt_version : List (String × AggregateStats)
  by_model_and_prompt_version : List (String × AggregateStats)
deriving DecidableEq, Repr

/-- `aggregator.compute_aggregates`. -/
def compute_aggregates (results : List EvalResult) : Aggregates :=
  { by_model :=
      (groupBy (fun r => r.model) results).map (fun p => (p.1, compute_stats p.2))
    by_prompt_version :=
      (groupBy (fun r => r.prompt_version) results).map (fun p => (p.1, compute_stats p.2))
    by_model_and_prompt_version :=
      (groupBy (fun r => r.model ++ "|" ++ r.prompt_version) results).map
        (fun p => (p.1, compute_stats p.2)) }

/-! ## reporter.py -/

/-- `reporter._result_to_dict`. -/
def result_to_dict (r : EvalResult) : JValue :=
  .jobj
    [ ("id", .jstr r.id)
    , ("model", .jstr r.model)
    , ("prompt_version", .jstr r.prompt_version)
    , ("relevance", .jobj [("score", .jint r.relevance.score), ("reasoning", .jstr r.relevance.reasoning)])
    , ("tone", .jobj [("score", .jint r.tone.score), ("reasoning", .jstr r.tone.reasoning)]) ]

/-- A skip record as serialized into the output document. -/
def skip_to_dict (s : SkipRecord) : JValue :=
  .jobj [("index", .jint s.index), ("reason", .jstr s.reason)]

/-- The `output` dict assembled by `reporter.write_results` before it is
dumped to the output path.  The source signature is
`write_results(results, skipped, failed, aggregates, output_path)`;
`failed` is serialized as given. -/
def write_results_doc (results : List EvalResult) (skipped : List SkipRecord)
    (failed : List JValue) (aggregates : JValue) : JValue :=
  .jobj
    [ ("results", .jarr (results.map result_to_dict))
    , ("skipped", .jarr (skipped.map skip_to_dict))
    , ("failed", .jarr failed)
    , ("aggregates", aggregates) ]

/-- Top-level keys of a JSON object (empty for non-objects). -/
def topKeys (v : JValue) : List String :=
  match v with
  | .jobj fields => fields.map Prod.fst
  | _ => []

/-! ## Derived definitions used by theorem statements -/

/-- The example produced from one input item when `_validate_example`
accepts it, `none` when the item is skipped. -/
def exampleOfItem (item : JValue) : Option Example :=
  match validate_example item with
  | some _ => none
  | none =>
    match item with
    | .jobj fields => some (mkExample fields)
    | _ => none

/-- The skip record produced from one indexed input item, `none` when
the item is valid. -/
def skipOfItem (p : Nat × JValue) : Option SkipRecord :=
  (validate_example p.2).map (fun e => ⟨p.1, e⟩)

/-- Rounding to two decimal places half away from zero.  This follows
the claim's words (standard rounding) and is stated only for comparison
with the rounding the code performs. -/
def standardRound2 (q : ℚ) : ℚ :=
  if 0 ≤ q then (⌊q * 100 + 1/2⌋ : ℚ) / 100
  else -((⌊-q * 100 + 1/2⌋ : ℚ) / 100)

/-- Total number of results stored in a grouping (sum of the `count`
entries). -/
def countSum (l : List (String × AggregateStats)) : Nat :=
  (l.map (fun p => p.2.count)).sum

/-- Total number of results stored across the groups of an
insertion-ordered dict of lists. -/
def totalLen (g : List (String × List EvalResult)) : Nat :=
  (g.map (fun p => p.2.length)).sum

/-- The keys of an insertion-ordered dict of lists, in order. -/
def keysOf (g : List (String × List EvalResult)) : List String :=
  g.map Prod.fst

/-- A three-field input item as accepted by the validation in
`loader.py` (no `model`, no `prompt_version`). -/
def c1Item : JValue :=
  .jobj [("id", .jstr "1"), ("ticket", .jstr "T"), ("response", .jstr "R")]

/-- Builds an `EvalResult` for concrete test data. -/
def mkResult (i m pv : String) (rel tn : Int) : EvalResult :=
  ⟨i, m, pv, ⟨rel, ""⟩, ⟨tn, ""⟩⟩

/-- Two results of the same group with relevance scores `[4, 3]` and
tone scores `[5, 4]`. -/
def twoResults : List EvalResult :=
  [mkResult "1" "gpt-4o" "v1.0" 4 5, mkResult "2" "gpt-4o" "v1.0" 3 4]

/-- Eight results of one group with relevance scores
`[1, 1, 1, 1, 1, 1, 1, 2]` (exact mean 9/8 = 1.125, an exactly
representable double, so the rounding of the code is observable without
floating-point effects). -/
def tieResults : List EvalResult :=
  [ mkResult "1" "gpt-4o" "v1" 1 1, mkResult "2" "gpt-4o" "v1" 1 1
  , mkResult "3" "gpt-4o" "v1" 1 1, mkResult "4" "gpt-4o" "v1" 1 1
  , mkResult "5" "gpt-4o" "v1" 1 1, mkResult "6" "gpt-4o" "v1" 1 1
  , mkResult "7" "gpt-4o" "v1" 1 1, mkResult "8" "gpt-4o" "v1" 2 1 ]

/-- Rationals exactly representable as binary64 doubles: a 53-bit
signed significand times a power of two no smaller than the smallest
subnormal.  At such values float conversion is exact, so the code's
rounding coincides with decimal rounding of the exact value. -/
def reprDouble (q : ℚ) : Prop :=
  ∃ m e : ℤ, q = (m : ℚ) * 2 ^ e ∧ |m| < 2 ^ 53 ∧ -1074 ≤ e

/-- Forty results of one group with relevance scores summing to 107
(27 threes and 13 twos): the exact mean 107/40 = 2.675 is not
representable in binary64 (the nearest double is just below), so the
code's rounding of the double is observable against rounding of the
exact rational. -/
def fortyResults : List EvalResult :=
  List.replicate 27 (mkResult "a" "gpt-4o" "v1" 3 3) ++
    List.replicate 13 (mkResult "b" "gpt-4o" "v1" 2 2)

/-- Two results with distinct models and prompt versions. -/
def mixedResults : List EvalResult :=
  [mkResult "1" "gpt-4o" "v1.0" 4 5, mkResult "2" "claude-3" "v2" 3 4]

/-! ## Theorems -/

/-- **C1.** The claim says per-item validation checks the five fields
`id, ticket, response, model, prompt_version` and that every valid item
becomes an `Example` carrying all five.  The code checks only
`id, ticket, response` and `loader.Example` declares only those three
fields: an item with no `model` and no `prompt_version` is accepted,
while the repository's own tests (`test_loader.py`) require it to be
skipped with reason `Missing 'model' field`.  This theorem evaluates the
code at such an item. -/
theorem C1_three_field_validation :
    validate_example c1Item = none ∧
    load_examples (.jarr [c1Item]) = .ok ⟨[⟨"1", "T", "R"⟩], []⟩ := by
  exact ⟨rfl, rfl⟩

/-- **C2.** The claim says `evaluate_example` judges an example with the
cross-provider judge and returns an `EvalResult` carrying
`id`/`model`/`prompt_version` from the input example.  The code reads
`example.model` at once, but `loader.Example` declares no `model`
attribute, so every evaluation of a loader-produced example raises
`AttributeError` before any judging happens (the repository's own tests
construct five-field examples and assert the claimed behaviour). -/
theorem C2_evaluate_attribute_error (e : Example) (config : Config)
    (openaiJudge anthropicJudge : JudgeFn) :
    evaluate_example e config openaiJudge anthropicJudge =
      .error (.attributeError "model") := by
  rfl

/-- **C9.** The parsed integer score is passed through as-is, with no
range check: for every integer `s` (including every `s` from 1 to 5 and
every integer outside that range) and every reasoning string `r`,
parsing the judge object `{"score": s, "reasoning": r}` yields the score
object carrying exactly `s` and `r`. -/
theorem C9_score_passthrough (s : Int) (r : String) :
    parse_judge_output (some (.jobj [("score", .jint s), ("reasoning", .jstr r)])) =
      .ok ⟨.jint s, .jstr r⟩ := by
  rfl

/-- **C4 counterexample.** The claim says score parsing fails when the
`score` field is not an integer; the code performs no type validation,
so the judge object `{"score": "4", "reasoning": "x"}` (score a string)
parses successfully. -/
theorem C4_counterexample :
    parse_judge_output (some (.jobj [("score", .jstr "4"), ("reasoning", .jstr "x")])) =
      .ok ⟨.jstr "4", .jstr "x"⟩ := by
  rfl

/-- **C5.** The claim says the output document has exactly the keys
`results`, `skipped`, `aggregates`.  The document built by
`reporter.write_results` always carries the fourth key `failed` between
`skipped` and `aggregates` (and the function takes a `failed` parameter
that its only caller, `main.py` line 67, and all of `test_reporter.py`
omit, so the actual call raises `TypeError`). -/
theorem C5_output_has_failed_key (results : List EvalResult)
    (skipped : List SkipRecord) (failed : List JValue) (aggregates : JValue) :
    topKeys (write_results_doc results skipped failed aggregates) =
      ["results", "skipped", "failed", "aggregates"] := by
  rfl

/-- **C3.** `get_provider_from_model` classifies names starting with an
OpenAI-family prefix (`gpt-`, `o1-`) as `openai`, names starting with
the Anthropic-family prefix `claude-` as `anthropic`, and raises
`ValueError` whose message names the offending model string for every
other name; dict subscription (used for the `judge_mapping` and
`judge_models` lookups in `evaluate_example`) fails with `KeyError`
exactly when the key is absent, and returns the stored value
otherwise. -/
theorem C3_provider_routing (m : String) (d : List (String × String)) (k : String) :
    (pyStartsWith m "gpt-" = true ∨ pyStartsWith m "o1-" = true →
      get_provider_from_model m = .ok "openai") ∧
    (pyStartsWith m "gpt-" = false → pyStartsWith m "o1-" = false →
      pyStartsWith m "claude-" = true →
      get_provider_from_model m = .ok "anthropic") ∧
    (pyStartsWith m "gpt-" = false → pyStartsWith m "o1-" = false →
      pyStartsWith m "claude-" = false →
      get_provider_from_model m =
        .error (.valueError ("Unknown model provider for: " ++ m))) ∧
    (dictGet d k = .error (.keyError k) ↔ d.lookup k = none) ∧
    (∀ v, d.lookup k = some v → dictGet d k = .ok v) := by
  refine ⟨?_, ?_, ?_, ?_, ?_⟩
  · intro h
    rcases h with h | h <;> simp [get_provider_from_model, h]
  · intro h1 h2 h3
    simp [get_provider_from_model, h1, h2, h3]
  · intro h1 h2 h3
    simp [get_provider_from_model, h1, h2, h3]
  · cases h : d.lookup k <;> simp [dictGet, h]
  · intro v hv
    simp [dictGet, hv]

/-- Witness for C3 at concrete inputs: the example model names of the
claim classify as stated, and one concrete mapping succeeds on a present
key and fails with `KeyError` on an absent one. -/
theorem C3_provider_routing_witness :
    get_provider_from_model "gpt-4o" = .ok "openai" ∧
    get_provider_from_model "o1-preview" = .ok "openai" ∧
    get_provider_from_model "claude-sonnet-4-20250514" = .ok "anthropic" ∧
    get_provider_from_model "unknown-model" =
      .error (.valueError ("Unknown model provider for: " ++ "unknown-model")) ∧
    dictGet [("openai", "anthropic")] "openai" = .ok "anthropic" ∧
    dictGet [("openai", "anthropic")] "anthropic" = .error (.keyError "anthropic") := by
  refine ⟨?_, ?_, ?_, ?_, ?_, ?_⟩
  · exact (C3_provider_routing "gpt-4o" [] "").1 (Or.inl (by decide))
  · exact (C3_provider_routing "o1-preview" [] "").1 (Or.inr (by decide))
  · exact (C3_provider_routing "claude-sonnet-4-20250514" [] "").2.1
      (by decide) (by decide) (by decide)
  · exact (C3_provider_routing "unknown-model" [] "").2.2.1
      (by decide) (by decide) (by decide)
  · exact (C3_provider_routing "" [("openai", "anthropic")] "openai").2.2.2.2
      "anthropic" (by decide)
  · exact (C3_provider_routing "" [("openai", "anthropic")] "anthropic").2.2.2.1.mpr
      (by decide)

/-- **C10.** Provider classification is case-sensitive exact-prefix
matching: every model string that does not literally start with
`gpt-`, `o1-` or `claude-` (including case variants such as `GPT-4o`
and `Claude-3`) makes `get_provider_from_model` raise the
unknown-provider `ValueError` naming the string. -/
theorem C10_case_sensitive_classification (m : String)
    (h1 : pyStartsWith m "gpt-" = false) (h2 : pyStartsWith m "o1-" = false)
    (h3 : pyStartsWith m "claude-" = false) :
    get_provider_from_model m =
      .error (.valueError ("Unknown model provider for: " ++ m)) := by
  simp [get_provider_from_model, h1, h2, h3]

/-- Witness for C10 at the case-variant model names `GPT-4o` and
`Claude-3`. -/
theorem C10_case_sensitive_classification_witness :
    get_provider_from_model "GPT-4o" =
      .error (.valueError ("Unknown model provider for: " ++ "GPT-4o")) ∧
    get_provider_from_model "Claude-3" =
      .error (.valueError ("Unknown model provider for: " ++ "Claude-3")) := by
  exact ⟨C10_case_sensitive_classification "GPT-4o" (by decide) (by decide) (by decide),
    C10_case_sensitive_classification "Claude-3" (by decide) (by decide) (by decide)⟩

/-- **C4 (amended).** Score parsing fails exactly when the text is not
valid JSON (`json.JSONDecodeError`), the parsed value is not an object
(`TypeError`), or the `score` / `reasoning` key is absent (`KeyError`) —
there is no dedicated `MalformedJudgeOutputError` — and when both keys
are present it succeeds, passing both values through with no type
validation. -/
theorem C4_parse_error_cases (raw : Option JValue) :
    (raw = none → parse_judge_output raw = .error .jsonDecodeError) ∧
    (∀ v, raw = some v → (∀ fields, v ≠ .jobj fields) →
      parse_judge_output raw =
        .error (.typeError "value is not subscriptable by a string key")) ∧
    (∀ fields, raw = some (.jobj fields) → jGet? fields "score" = none →
      parse_judge_output raw = .error (.keyError "score")) ∧
    (∀ fields sv, raw = some (.jobj fields) → jGet? fields "score" = some sv →
      jGet? fields "reasoning" = none →
      parse_judge_output raw = .error (.keyError "reasoning")) ∧
    (∀ fields sv rv, raw = some (.jobj fields) → jGet? fields "score" = some sv →
      jGet? fields "reasoning" = some rv →
      parse_judge_output raw = .ok ⟨sv, rv⟩) := by
  refine ⟨?_, ?_, ?_, ?_, ?_⟩
  · rintro rfl; rfl
  · rintro v rfl hv
    cases v
    case jobj fields => exact absurd rfl (hv fields)
    all_goals rfl
  · rintro fields rfl hs
    simp only [parse_judge_output, pySubscript, hs]
    rfl
  · rintro fields sv rfl hs hr
    simp only [parse_judge_output, pySubscript, hs, hr]
    rfl
  · rintro fields sv rv rfl hs hr
    simp only [parse_judge_output, pySubscript, hs, hr]
    rfl

/-- Witness for C4 (amended) at one concrete input per case: invalid
JSON, a non-object, an object with no `score`, an object with no
`reasoning`, and an object with both keys present. -/
theorem C4_parse_error_cases_witness :
    parse_judge_output none = .error .jsonDecodeError ∧
    parse_judge_output (some (.jarr [])) =
      .error (.typeError "value is not subscriptable by a string key") ∧
    parse_judge_output (some (.jobj [])) = .error (.keyError "score") ∧
    parse_judge_output (some (.jobj [("score", .jint 4)])) =
      .error (.keyError "reasoning") ∧
    parse_judge_output (some (.jobj [("score", .jint 4), ("reasoning", .jstr "ok")])) =
      .ok ⟨.jint 4, .jstr "ok"⟩ := by
  refine ⟨(C4_parse_error_cases none).1 rfl,
    (C4_parse_error_cases _).2.1 (.jarr []) rfl (fun fields h => JValue.noConfusion h),
    (C4_parse_error_cases _).2.2.1 [] rfl rfl,
    (C4_parse_error_cases _).2.2.2.1 _ (.jint 4) rfl rfl rfl,
    (C4_parse_error_cases _).2.2.2.2 _ (.jint 4) (.jstr "ok") rfl rfl rfl⟩

/-- The per-item loop of `load_examples` in closed form: valid items
become examples in order, invalid ones become indexed skip records in
order. -/
theorem loadItems_eq (items : List JValue) : ∀ i : Nat,
    loadItems i items =
      (items.filterMap exampleOfItem, (items.enumFrom i).filterMap skipOfItem) := by
  induction items with
  | nil => intro i; rfl
  | cons item rest ih =>
    intro i
    cases h : validate_example item with
    | some err =>
      have hstep : loadItems i (item :: rest) =
          ((loadItems (i + 1) rest).1, ⟨i, err⟩ :: (loadItems (i + 1) rest).2) := by
        simp [loadItems, h]
      have hex : exampleOfItem item = none := by simp [exampleOfItem, h]
      have hsk : skipOfItem (i, item) = some ⟨i, err⟩ := by simp [skipOfItem, h]
      simp [hstep, ih, List.enumFrom, hex, hsk]
    | none =>
      cases item with
      | jobj fields =>
        have hstep : loadItems i (.jobj fields :: rest) =
            (mkExample fields :: (loadItems (i + 1) rest).1, (loadItems (i + 1) rest).2) := by
          simp [loadItems, h]
        have hex : exampleOfItem (.jobj fields) = some (mkExample fields) := by
          simp [exampleOfItem, h]
        have hsk : skipOfItem (i, .jobj fields) = none := by simp [skipOfItem, h]
        simp [hstep, ih, List.enumFrom, hex, hsk]
      | jnull => simp [validate_example] at h
      | jbool b => simp [validate_example] at h
      | jint n => simp [validate_example] at h
      | jnum q => simp [validate_example] at h
      | jstr s => simp [validate_example] at h
      | jarr l => simp [validate_example] at h

/-- Every input item contributes exactly one output: an example or a
skip record. -/
theorem loadItems_count (items : List JValue) : ∀ i : Nat,
    (loadItems i items).1.length + (loadItems i items).2.length = items.length := by
  induction items with
  | nil => intro i; rfl
  | cons item rest ih =>
    intro i
    cases h : validate_example item with
    | some err =>
      have hstep : loadItems i (item :: rest) =
          ((loadItems (i + 1) rest).1, ⟨i, err⟩ :: (loadItems (i + 1) rest).2) := by
        simp [loadItems, h]
      simp only [hstep, List.length_cons]
      have := ih (i + 1)
      omega
    | none =>
      cases item with
      | jobj fields =>
        have hstep : loadItems i (.jobj fields :: rest) =
            (mkExample fields :: (loadItems (i + 1) rest).1, (loadItems (i + 1) rest).2) := by
          simp [loadItems, h]
        simp only [hstep, List.length_cons]
        have := ih (i + 1)
        omega
      | jnull => simp [validate_example] at h
      | jbool b => simp [validate_example] at h
      | jint n => simp [validate_example] at h
      | jnum q => simp [validate_example] at h
      | jstr s => simp [validate_example] at h
      | jarr l => simp [validate_example] at h

/-- The indices carried by the skip records are exactly the enumerated
positions of the invalid items, in order. -/
theorem skip_indices (l : List (Nat × JValue)) :
    (l.filterMap skipOfItem).map SkipRecord.index =
      (l.filter (fun p => (validate_example p.2).isSome)).map Prod.fst := by
  induction l with
  | nil => rfl
  | cons p rest ih =>
    cases h : validate_example p.2 with
    | none => simp [skipOfItem, h, List.filter_cons, ih]
    | some err => simp [skipOfItem, h, List.filter_cons, ih]

/-- **C6.** For an array input, `load_examples` succeeds: the examples
are exactly the valid items in input order, the skip records exactly the
invalid items in input order, their counts sum to the input length, and
the skip indices are exactly the zero-based positions of the invalid
items; a top-level non-array input raises
`ValueError("Input must be a JSON array")`, and no per-item issue
raises. -/
theorem C6_load_partition (items : List JValue) (data : JValue) :
    load_examples (.jarr items) =
      .ok ⟨items.filterMap exampleOfItem, (items.enumFrom 0).filterMap skipOfItem⟩ ∧
    (items.filterMap exampleOfItem).length +
      ((items.enumFrom 0).filterMap skipOfItem).length = items.length ∧
    ((items.enumFrom 0).filterMap skipOfItem).map SkipRecord.index =
      ((items.enumFrom 0).filter (fun p => (validate_example p.2).isSome)).map Prod.fst ∧
    ((∀ l, data ≠ .jarr l) →
      load_examples data = .error (.valueError "Input must be a JSON array")) := by
  refine ⟨?_, ?_, skip_indices _, ?_⟩
  · simp [load_examples, loadItems_eq items 0]
  · have hc := loadItems_count items 0
    rw [loadItems_eq items 0] at hc
    exact hc
  · intro hne
    cases data with
    | jarr l => exact absurd rfl (hne l)
    | jnull => rfl
    | jbool b => rfl
    | jint n => rfl
    | jnum q => rfl
    | jstr s => rfl
    | jobj fields => rfl

/-- Witness for C6 at a concrete two-item batch (one valid item, one
non-object) and a concrete non-array input. -/
theorem C6_load_partition_witness :
    load_examples (.jarr [c1Item, .jstr "no"]) =
      .ok ⟨[⟨"1", "T", "R"⟩], [⟨1, "Item is not an object"⟩]⟩ ∧
    load_examples .jnull = .error (.valueError "Input must be a JSON array") := by
  have h := C6_load_partition [c1Item, .jstr "no"] .jnull
  exact ⟨by rw [h.1]; rfl, h.2.2.2 (fun l hl => JValue.noConfusion hl)⟩

/-- A left fold with `min` lands on a member of the list it folds
over. -/
theorem foldl_min_mem (xs : List Int) : ∀ x : Int, xs.foldl min x ∈ x :: xs := by
  induction xs with
  | nil => intro x; simp
  | cons y ys ih =>
    intro x
    simp only [List.foldl_cons]
    rcases List.mem_cons.1 (ih (min x y)) with h1 | h1
    · rcases min_choice x y with hc | hc <;> rw [h1, hc]
      · exact List.mem_cons_self _ _
      · simp
    · exact List.mem_cons.2 (Or.inr (List.mem_cons.2 (Or.inr h1)))

/-- A left fold with `min` is a lower bound of the seed and the list. -/
theorem foldl_min_le (xs : List Int) : ∀ x y : Int, y ∈ x :: xs → xs.foldl min x ≤ y := by
  induction xs with
  | nil =>
    intro x y hy
    simp only [List.mem_singleton] at hy
    simp [hy]
  | cons z zs ih =>
    intro x y hy
    simp only [List.foldl_cons]
    rcases List.mem_cons.1 hy with h1 | hy1
    · rw [h1]
      exact le_trans (ih (min x z) (min x z) (List.mem_cons_self _ _)) (min_le_left _ _)
    · rcases List.mem_cons.1 hy1 with h2 | hy2
      · rw [h2]
        exact le_trans (ih (min x z) (min x z) (List.mem_cons_self _ _)) (min_le_right _ _)
      · exact ih (min x z) y (List.mem_cons.2 (Or.inr hy2))

/-- A left fold with `max` lands on a member of the list it folds
over. -/
theorem foldl_max_mem (xs : List Int) : ∀ x : Int, xs.foldl max x ∈ x :: xs := by
  induction xs with
  | nil => intro x; simp
  | cons y ys ih =>
    intro x
    simp only [List.foldl_cons]
    rcases List.mem_cons.1 (ih (max x y)) with h1 | h1
    · rcases max_choice x y with hc | hc <;> rw [h1, hc]
      · exact List.mem_cons_self _ _
      · simp
    · exact List.mem_cons.2 (Or.inr (List.mem_cons.2 (Or.inr h1)))

/-- A left fold with `max` is an upper bound of the seed and the list. -/
theorem foldl_max_ge (xs : List Int) : ∀ x y : Int, y ∈ x :: xs → y ≤ xs.foldl max x := by
  induction xs with
  | nil =>
    intro x y hy
    simp only [List.mem_singleton] at hy
    simp [hy]
  | cons z zs ih =>
    intro x y hy
    simp only [List.foldl_cons]
    rcases List.mem_cons.1 hy with h1 | hy1
    · rw [h1]
      exact le_trans (le_max_left _ _) (ih (max x z) (max x z) (List.mem_cons_self _ _))
    · rcases List.mem_cons.1 hy1 with h2 | hy2
      · rw [h2]
        exact le_trans (le_max_right _ _) (ih (max x z) (max x z) (List.mem_cons_self _ _))
      · exact ih (max x z) y (List.mem_cons.2 (Or.inr hy2))

/-- `pyMin` of a nonempty list is its least member. -/
theorem pyMin_spec (xs : List Int) (h : xs ≠ []) :
    pyMin xs ∈ xs ∧ ∀ y ∈ xs, pyMin xs ≤ y := by
  cases xs with
  | nil => exact absurd rfl h
  | cons x t => exact ⟨foldl_min_mem t x, fun y hy => foldl_min_le t x y hy⟩

/-- `pyMax` of a nonempty list is its greatest member. -/
theorem pyMax_spec (xs : List Int) (h : xs ≠ []) :
    pyMax xs ∈ xs ∧ ∀ y ∈ xs, y ≤ pyMax xs := by
  cases xs with
  | nil => exact absurd rfl h
  | cons x t => exact ⟨foldl_max_mem t x, fun y hy => foldl_max_ge t x y hy⟩

/-- Rounding an integer to an integer precision leaves it unchanged. -/
theorem roundHalfEven_intCast (k : ℤ) : roundHalfEven (k : ℚ) = k := by
  unfold roundHalfEven
  rw [Int.floor_intCast, sub_self]
  rw [if_pos (by norm_num)]

/-- Binary64 rounding is exact on representable rationals. -/
theorem nearestDouble_of_repr (q : ℚ) (hq : reprDouble q) : nearestDouble q = q := by
  obtain ⟨m, e, rfl, hm, he⟩ := hq
  by_cases hm0 : m = 0
  · subst hm0; simp [nearestDouble]
  have h2 : (2:ℚ) ≠ 0 := by norm_num
  have hq0 : (m : ℚ) * 2 ^ e ≠ 0 :=
    mul_ne_zero (by exact_mod_cast hm0) (zpow_ne_zero e h2)
  have habs : |(m : ℚ) * 2 ^ e| = |(m : ℚ)| * 2 ^ e := by
    rw [abs_mul, abs_of_pos (zpow_pos (show (0:ℚ) < 2 by norm_num) e)]
  have hlt : |(m : ℚ) * 2 ^ e| < ((2:ℕ):ℚ) ^ (e + 53) := by
    push_cast
    rw [habs, zpow_add₀ h2]
    have hmq : |(m : ℚ)| < 2 ^ (53:ℕ) := by
      rw [← Int.cast_abs]
      exact_mod_cast hm
    calc |(m : ℚ)| * 2 ^ e < 2 ^ (53:ℕ) * 2 ^ e :=
          mul_lt_mul_of_pos_right hmq (zpow_pos (show (0:ℚ) < 2 by norm_num) e)
    _ = 2 ^ e * 2 ^ (53 : ℤ) := by
          rw [mul_comm]
          norm_num
  have hL : Int.log 2 |(m : ℚ) * 2 ^ e| < e + 53 :=
    (Int.lt_zpow_iff_log_lt (by norm_num) (abs_pos.2 hq0)).1 hlt
  set e' : ℤ := max (Int.log 2 |(m : ℚ) * 2 ^ e| - 52) (-1074) with he'
  have he'le : e' ≤ e := max_le (by omega) he
  have hd : (0:ℤ) ≤ e - e' := by omega
  have hsplit : (m : ℚ) * 2 ^ e / 2 ^ e' = ((m * 2 ^ (e - e').toNat : ℤ) : ℚ) := by
    push_cast
    rw [← zpow_natCast (2:ℚ) (e - e').toNat, Int.toNat_of_nonneg hd, zpow_sub₀ h2,
      mul_div_assoc]
  unfold nearestDouble
  rw [if_neg hq0, ← he', hsplit, roundHalfEven_intCast]
  push_cast
  rw [← zpow_natCast (2:ℚ) (e - e').toNat, Int.toNat_of_nonneg hd, zpow_sub₀ h2]
  field_simp

/-- Rounding an integer-valued rational to two decimal places leaves it
unchanged. -/
theorem pyRound2_intCast (s : Int) : pyRound2 (s : ℚ) = s := by
  unfold pyRound2 roundHalfEven
  have h1 : ((s : ℚ) * 100) = ((s * 100 : ℤ) : ℚ) := by push_cast; ring
  rw [h1, Int.floor_intCast, sub_self]
  rw [if_pos (by norm_num)]
  push_cast
  field_simp

/-- The binary64 exponent of 107/40 (needed to evaluate the model at a
mean that is not exactly representable). -/
theorem log_two_of_fortyMean : Int.log 2 ((107:ℚ)/40) = 1 := by
  rw [Int.log_of_one_le_right _ (by norm_num)]
  have hf : ⌊(107:ℚ)/40⌋₊ = 2 := by
    rw [Nat.floor_eq_iff (by norm_num)]
    norm_num
  have hl : Nat.log 2 2 = 1 := Nat.log_eq_of_pow_le_of_lt_pow (by norm_num) (by norm_num)
  rw [hf, hl]
  norm_num

/-- **C7 counterexample.** Two groups refute the standard-rounding
claim.  For eight results with relevance scores `[1,1,1,1,1,1,1,2]`
(exact mean 1.125, an exact double) the code reports 1.12, Python
`round` tying to even, while standard rounding gives 1.13.  For forty
results with scores summing to 107 (exact mean 2.675, not representable
in binary64: the quotient double is just below 2.675) the code reports
2.67 while standard rounding of the exact mean gives 2.68. -/
theorem C7_rounding_counterexample :
    (compute_stats tieResults).relevance.mean = 112/100 ∧
    standardRound2 ((9:ℚ)/8) = 113/100 ∧
    ((112 : ℚ)/100) ≠ 113/100 ∧
    (compute_stats fortyResults).relevance.mean = 267/100 ∧
    standardRound2 ((107:ℚ)/40) = 268/100 ∧
    ((267 : ℚ)/100) ≠ 268/100 := by
  refine ⟨?_, ?_, by norm_num, ?_, ?_, by norm_num⟩
  · have h1 : (compute_stats tieResults).relevance.mean =
        pyRound2 (nearestDouble ((9:ℚ)/8)) := by
      simp only [compute_stats, tieResults, mkResult, List.map_cons, List.map_nil,
        List.sum_cons, List.sum_nil, List.length_cons, List.length_nil]
      norm_num
    rw [h1, nearestDouble_of_repr _ ⟨9, -3, by norm_num, by norm_num, by norm_num⟩]
    unfold pyRound2 roundHalfEven
    norm_num [Int.even_iff]
  · unfold standardRound2
    norm_num
  · have h1 : (compute_stats fortyResults).relevance.mean =
        pyRound2 (nearestDouble ((107:ℚ)/40)) := by
      simp only [compute_stats, fortyResults, mkResult, List.map_append,
        List.map_replicate, List.sum_append, List.sum_replicate, List.length_append,
        List.length_replicate, smul_eq_mul]
      norm_num
    have habs : |(107:ℚ)/40| = 107/40 := abs_of_pos (by norm_num)
    rw [h1]
    unfold nearestDouble
    rw [if_neg (by norm_num), habs, log_two_of_fortyMean]
    norm_num
    unfold roundHalfEven pyRound2 roundHalfEven
    norm_num [Int.even_iff]
  · unfold standardRound2
    norm_num

/-- **C7 (amended).** For every nonempty group, `_compute_stats`
reports `count` equal to the group size; the per-dimension `mean` is
the arithmetic mean computed in binary64 (the double nearest the exact
ratio) rounded to 2 decimal places with round-half-to-even (Python
`round`, banker's rounding — not half-away-from-zero); whenever the
exact mean is exactly representable in binary64 this equals the exact
mean rounded half to even; per-dimension `min` and `max` are the
least and greatest raw integer scores (Python `min`/`max` on ints is
exact); a single-result group has `min == max == mean`, the mean exact
for scores within the 53-bit significand range. -/
theorem C7_group_stats (results : List EvalResult) (h : results ≠ []) :
    (compute_stats results).count = results.length ∧
    (compute_stats results).relevance.mean =
      pyRound2 (nearestDouble
        ((((results.map (fun r => r.relevance.score)).sum : ℤ) : ℚ) / (results.length : ℚ))) ∧
    (compute_stats results).tone.mean =
      pyRound2 (nearestDouble
        ((((results.map (fun r => r.tone.score)).sum : ℤ) : ℚ) / (results.length : ℚ))) ∧
    (compute_stats results).relevance.min ∈ results.map (fun r => r.relevance.score) ∧
    (∀ x ∈ results.map (fun r => r.relevance.score), (compute_stats results).relevance.min ≤ x) ∧
    (compute_stats results).relevance.max ∈ results.map (fun r => r.relevance.score) ∧
    (∀ x ∈ results.map (fun r => r.relevance.score), x ≤ (compute_stats results).relevance.max) ∧
    (compute_stats results).tone.min ∈ results.map (fun r => r.tone.score) ∧
    (∀ x ∈ results.map (fun r => r.tone.score), (compute_stats results).tone.min ≤ x) ∧
    (compute_stats results).tone.max ∈ results.map (fun r => r.tone.score) ∧
    (∀ x ∈ results.map (fun r => r.tone.score), x ≤ (compute_stats results).tone.max) ∧
    (reprDouble ((((results.map (fun r => r.relevance.score)).sum : ℤ) : ℚ) / (results.length : ℚ)) →
      (compute_stats results).relevance.mean =
        pyRound2 ((((results.map (fun r => r.relevance.score)).sum : ℤ) : ℚ) / (results.length : ℚ))) ∧
    (reprDouble ((((results.map (fun r => r.tone.score)).sum : ℤ) : ℚ) / (results.length : ℚ)) →
      (compute_stats results).tone.mean =
        pyRound2 ((((results.map (fun r => r.tone.score)).sum : ℤ) : ℚ) / (results.length : ℚ))) ∧
    (∀ r, results = [r] →
      (compute_stats results).relevance.min = r.relevance.score ∧
      (compute_stats results).relevance.max = r.relevance.score ∧
      (|r.relevance.score| < 2 ^ 53 →
        (compute_stats results).relevance.mean = (r.relevance.score : ℚ)) ∧
      (compute_stats results).tone.min = r.tone.score ∧
      (compute_stats results).tone.max = r.tone.score ∧
      (|r.tone.score| < 2 ^ 53 →
        (compute_stats results).tone.mean = (r.tone.score : ℚ))) := by
  have hrel : results.map (fun r => r.relevance.score) ≠ [] := by
    intro h0
    exact h (List.map_eq_nil_iff.1 h0)
  have htone : results.map (fun r => r.tone.score) ≠ [] := by
    intro h0
    exact h (List.map_eq_nil_iff.1 h0)
  obtain ⟨hrmin, hrle⟩ := pyMin_spec _ hrel
  obtain ⟨hrmax, hrge⟩ := pyMax_spec _ hrel
  obtain ⟨htmin, htle⟩ := pyMin_spec _ htone
  obtain ⟨htmax, htge⟩ := pyMax_spec _ htone
  refine ⟨rfl, ?_, ?_, hrmin, hrle, hrmax, hrge, htmin, htle, htmax, htge, ?_, ?_, ?_⟩
  · simp [compute_stats]
  · simp [compute_stats]
  · intro hrepr
    have h1 : (compute_stats results).relevance.mean =
        pyRound2 (nearestDouble
          ((((results.map (fun r => r.relevance.score)).sum : ℤ) : ℚ) / (results.length : ℚ))) := by
      simp [compute_stats]
    rw [h1, nearestDouble_of_repr _ hrepr]
  · intro hrepr
    have h1 : (compute_stats results).tone.mean =
        pyRound2 (nearestDouble
          ((((results.map (fun r => r.tone.score)).sum : ℤ) : ℚ) / (results.length : ℚ))) := by
      simp [compute_stats]
    rw [h1, nearestDouble_of_repr _ hrepr]
  · rintro r rfl
    refine ⟨?_, ?_, ?_, ?_, ?_, ?_⟩
    · simp [compute_stats, pyMin]
    · simp [compute_stats, pyMax]
    · intro hb
      have h1 : (compute_stats [r]).relevance.mean =
          pyRound2 (nearestDouble ((r.relevance.score : ℚ))) := by
        simp [compute_stats]
      rw [h1, nearestDouble_of_repr _ ⟨r.relevance.score, 0, by norm_num, hb, by norm_num⟩,
        pyRound2_intCast]
    · simp [compute_stats, pyMin]
    · simp [compute_stats, pyMax]
    · intro hb
      have h1 : (compute_stats [r]).tone.mean =
          pyRound2 (nearestDouble ((r.tone.score : ℚ))) := by
        simp [compute_stats]
      rw [h1, nearestDouble_of_repr _ ⟨r.tone.score, 0, by norm_num, hb, by norm_num⟩,
        pyRound2_intCast]

/-- Witness for C7 (amended) at the concrete group with relevance scores
`[4, 3]`: count 2, mean 3.5 (7/2 is exactly representable, so the
representability conjunct applies), min 3, max 4. -/
theorem C7_group_stats_witness :
    (compute_stats twoResults).count = 2 ∧
    (compute_stats twoResults).relevance.mean = 7/2 ∧
    (compute_stats twoResults).relevance.min = 3 ∧
    (compute_stats twoResults).relevance.max = 4 := by
  have h := C7_group_stats twoResults (by simp [twoResults])
  have hrepr : reprDouble
      ((((twoResults.map (fun r => r.relevance.score)).sum : ℤ) : ℚ) / (twoResults.length : ℚ)) := by
    refine ⟨7, -1, ?_, by norm_num, by norm_num⟩
    simp [twoResults, mkResult]
    norm_num
  have hmean := h.2.2.2.2.2.2.2.2.2.2.2.1 hrepr
  refine ⟨h.1, ?_, ?_, ?_⟩
  · rw [hmean]
    simp only [twoResults, mkResult, List.map_cons, List.map_nil, List.sum_cons,
      List.sum_nil, List.length_cons, List.length_nil]
    unfold pyRound2 roundHalfEven
    norm_num
  · norm_num [compute_stats, twoResults, mkResult, pyMin, min_def]
  · norm_num [compute_stats, twoResults, mkResult, pyMax, max_def]

/-- Appending one result to its group adds exactly one stored result. -/
theorem totalLen_addToGroup (g : List (String × List EvalResult)) (k : String)
    (r : EvalResult) : totalLen (addToGroup g k r) = totalLen g + 1 := by
  induction g with
  | nil => rfl
  | cons p rest ih =>
    obtain ⟨k', rs⟩ := p
    by_cases hk : k' = k
    · simp [addToGroup, hk, totalLen]
      omega
    · simp only [addToGroup, hk, if_false, totalLen, List.map_cons, List.sum_cons]
      simp only [totalLen] at ih
      omega

/-- The grouping fold stores every folded result exactly once. -/
theorem totalLen_foldl (key : EvalResult → String) (rs : List EvalResult) :
    ∀ g, totalLen (rs.foldl (fun g r => addToGroup g (key r) r) g) =
      totalLen g + rs.length := by
  induction rs with
  | nil => intro g; simp
  | cons r t ih =>
    intro g
    simp only [List.foldl_cons, List.length_cons]
    rw [ih, totalLen_addToGroup]
    omega

/-- `countSum` over the per-group statistics equals the number of stored
results, since `_compute_stats` reports the group size as `count`. -/
theorem countSum_map_stats (g : List (String × List EvalResult)) :
    countSum (g.map (fun p => (p.1, compute_stats p.2))) = totalLen g := by
  induction g with
  | nil => rfl
  | cons p rest ih =>
    simp only [countSum, totalLen, List.map_cons, List.map_map, List.sum_cons,
      Function.comp_def, compute_stats] at ih ⊢

/-- The key list after appending to a group: unchanged when the key was
already present, extended at the end otherwise. -/
theorem keysOf_addToGroup (g : List (String × List EvalResult)) (k : String)
    (r : EvalResult) :
    keysOf (addToGroup g k r) =
      if k ∈ keysOf g then keysOf g else keysOf g ++ [k] := by
  induction g with
  | nil => simp [addToGroup, keysOf]
  | cons p rest ih =>
    obtain ⟨k', rs⟩ := p
    by_cases hk : k' = k
    · subst hk
      simp [addToGroup, keysOf]
    · simp only [addToGroup, hk, if_false, keysOf, List.map_cons]
      simp only [keysOf] at ih
      rw [ih]
      by_cases hm : k ∈ List.map Prod.fst rest
      · simp [hm, Ne.symm hk]
      · simp [hm, Ne.symm hk]

/-- Appending to a group keeps the key list duplicate-free. -/
theorem keysOf_addToGroup_nodup (g : List (String × List EvalResult)) (k : String)
    (r : EvalResult) (h : (keysOf g).Nodup) : (keysOf (addToGroup g k r)).Nodup := by
  rw [keysOf_addToGroup]
  by_cases hm : k ∈ keysOf g
  · simpa [hm] using h
  · simp [hm, List.nodup_append, h]

/-- The grouping fold keeps the key list duplicate-free. -/
theorem keysOf_foldl_nodup (key : EvalResult → String) (rs : List EvalResult) :
    ∀ g, (keysOf g).Nodup →
      (keysOf (rs.foldl (fun g r => addToGroup g (key r) r) g)).Nodup := by
  induction rs with
  | nil => intro g h; simpa using h
  | cons r t ih =>
    intro g h
    simp only [List.foldl_cons]
    exact ih _ (keysOf_addToGroup_nodup g (key r) r h)

/-- After appending a result under key `k`, `k` is present. -/
theorem mem_keysOf_addToGroup_self (g : List (String × List EvalResult)) (k : String)
    (r : EvalResult) : k ∈ keysOf (addToGroup g k r) := by
  rw [keysOf_addToGroup]
  by_cases hm : k ∈ keysOf g <;> simp [hm]

/-- Appending a result preserves all present keys. -/
theorem mem_keysOf_addToGroup_mono (g : List (String × List EvalResult))
    (k k0 : String) (r : EvalResult) (h : k0 ∈ keysOf g) :
    k0 ∈ keysOf (addToGroup g k r) := by
  rw [keysOf_addToGroup]
  by_cases hm : k ∈ keysOf g <;> simp [hm, h]

/-- Every folded result's key is present in the final grouping. -/
theorem mem_keysOf_foldl (key : EvalResult → String) (rs : List EvalResult) :
    ∀ (g : List (String × List EvalResult)) (r : EvalResult),
      (r ∈ rs ∨ key r ∈ keysOf g) →
      key r ∈ keysOf (rs.foldl (fun g x => addToGroup g (key x) x) g) := by
  induction rs with
  | nil =>
    intro g r h
    rcases h with h | h
    · simp at h
    · simpa using h
  | cons r0 t ih =>
    intro g r h
    simp only [List.foldl_cons]
    rcases h with h | h
    · rcases List.mem_cons.1 h with h1 | hmem
      · rw [h1]
        exact ih _ r0 (Or.inr (mem_keysOf_addToGroup_self g (key r0) r0))
      · exact ih _ r (Or.inl hmem)
    · exact ih _ r (Or.inr (mem_keysOf_addToGroup_mono g (key r0) (key r) r0 h))

/-- The keys of a grouping survive the per-group statistics map. -/
theorem keys_map_stats (g : List (String × List EvalResult)) :
    (g.map (fun p => (p.1, compute_stats p.2))).map Prod.fst = keysOf g := by
  simp [keysOf, List.map_map, Function.comp_def]

/-- **C8.** `compute_aggregates` produces three groupings keyed by
model, by prompt version, and by the pipe-joined composite
`model ++ "|" ++ prompt_version`; in each grouping the group counts sum
to the number of results and the keys are duplicate-free (every result
is counted exactly once), every result's key is present in the
corresponding grouping, and the empty result list yields three empty
mappings. -/
theorem C8_three_groupings (results : List EvalResult) :
    compute_aggregates [] = ⟨[], [], []⟩ ∧
    countSum (compute_aggregates results).by_model = results.length ∧
    countSum (compute_aggregates results).by_prompt_version = results.length ∧
    countSum (compute_aggregates results).by_model_and_prompt_version = results.length ∧
    ((compute_aggregates results).by_model.map Prod.fst).Nodup ∧
    ((compute_aggregates results).by_prompt_version.map Prod.fst).Nodup ∧
    ((compute_aggregates results).by_model_and_prompt_version.map Prod.fst).Nodup ∧
    (∀ r ∈ results,
      r.model ∈ (compute_aggregates results).by_model.map Prod.fst ∧
      r.prompt_version ∈ (compute_aggregates results).by_prompt_version.map Prod.fst ∧
      (r.model ++ "|" ++ r.prompt_version) ∈
        (compute_aggregates results).by_model_and_prompt_version.map Prod.fst) := by
  refine ⟨rfl, ?_, ?_, ?_, ?_, ?_, ?_, ?_⟩
  · rw [show (compute_aggregates results).by_model =
      (groupBy (fun r => r.model) results).map (fun p => (p.1, compute_stats p.2)) from rfl,
      countSum_map_stats, groupBy, totalLen_foldl]
    simp [totalLen]
  · rw [show (compute_aggregates results).by_prompt_version =
      (groupBy (fun r => r.prompt_version) results).map (fun p => (p.1, compute_stats p.2)) from rfl,
      countSum_map_stats, groupBy, totalLen_foldl]
    simp [totalLen]
  · rw [show (compute_aggregates results).by_model_and_prompt_version =
      (groupBy (fun r => r.model ++ "|" ++ r.prompt_version) results).map
        (fun p => (p.1, compute_stats p.2)) from rfl,
      countSum_map_stats, groupBy, totalLen_foldl]
    simp [totalLen]
  · rw [show (compute_aggregates results).by_model =
      (groupBy (fun r => r.model) results).map (fun p => (p.1, compute_stats p.2)) from rfl,
      keys_map_stats]
    exact keysOf_foldl_nodup _ results [] (by simp [keysOf])
  · rw [show (compute_aggregates results).by_prompt_version =
      (groupBy (fun r => r.prompt_version) results).map (fun p => (p.1, compute_stats p.2)) from rfl,
      keys_map_stats]
    exact keysOf_foldl_nodup _ results [] (by simp [keysOf])
  · rw [show (compute_aggregates results).by_model_and_prompt_version =
      (groupBy (fun r => r.model ++ "|" ++ r.prompt_version) results).map
        (fun p => (p.1, compute_stats p.2)) from rfl,
      keys_map_stats]
    exact keysOf_foldl_nodup _ results [] (by simp [keysOf])
  · intro r hr
    refine ⟨?_, ?_, ?_⟩
    · rw [show (compute_aggregates results).by_model =
        (groupBy (fun r => r.model) results).map (fun p => (p.1, compute_stats p.2)) from rfl,
        keys_map_stats]
      exact mem_keysOf_foldl (fun r => r.model) results [] r (Or.inl hr)
    · rw [show (compute_aggregates results).by_prompt_version =
        (groupBy (fun r => r.prompt_version) results).map (fun p => (p.1, compute_stats p.2)) from rfl,
        keys_map_stats]
      exact mem_keysOf_foldl (fun r => r.prompt_version) results [] r (Or.inl hr)
    · rw [show (compute_aggregates results).by_model_and_prompt_version =
        (groupBy (fun r => r.model ++ "|" ++ r.prompt_version) results).map
          (fun p => (p.1, compute_stats p.2)) from rfl,
        keys_map_stats]
      exact mem_keysOf_foldl (fun r => r.model ++ "|" ++ r.prompt_version) results [] r (Or.inl hr)

/-- Witness for C8 at a concrete two-result list with distinct models:
counts sum to 2 in each grouping and the literal composite key
`gpt-4o|v1.0` is present. -/
theorem C8_three_groupings_witness :
    countSum (compute_aggregates mixedResults).by_model = 2 ∧
    countSum (compute_aggregates mixedResults).by_prompt_version = 2 ∧
    countSum (compute_aggregates mixedResults).by_model_and_prompt_version = 2 ∧
    ("gpt-4o|v1.0" : String) ∈
      (compute_aggregates mixedResults).by_model_and_prompt_version.map Prod.fst := by
  have h := C8_three_groupings mixedResults
  refine ⟨h.2.1, h.2.2.1, h.2.2.2.1, ?_⟩
  have hm := (h.2.2.2.2.2.2.2 (mkResult "1" "gpt-4o" "v1.0" 4 5)
    (by simp [mixedResults])).2.2
  simpa using hm

end EvalHarness
